import Mathlib

/-!
Verification development for the synthetic case generation pipeline.

Shallow embedding of the three pipeline modules:
  * `ingest_seeds.py`       — seed corpus indexer,
  * `generate_synthetic.py` — retrieval, prompt composition, validation, saving,
  * `generate_batch_25.py`  — batch orchestrator with the per-case retry loop.

Parsed JSON documents are modelled by the inductive type `Jval`; Python
standard-library operations used by the code (`int(...)`, `str(...)`,
`dict.get`, truthiness, `str.replace`, `"sep".join`) are modelled by
explicit total functions with the same observable behaviour on `Jval`.
Python exceptions are modelled by `Except String`.
-/

/-- A parsed JSON value (the result of a successful `json.loads`). -/
inductive Jval where
  | jnull : Jval
  | jbool : Bool → Jval
  | jint  : Int → Jval
  | jstr  : String → Jval
  | jarr  : List Jval → Jval
  | jobj  : List (String × Jval) → Jval
deriving Repr

open Jval

/-! ### JSON serialization (`json.dumps`, compact model) -/

/-- Escape a character for a JSON string literal. -/
def jsonEscapeChar (c : Char) : String :=
  if c = '\\' then "\\\\"
  else if c = '\"' then "\\\""
  else if c = '\n' then "\\n"
  else String.singleton c

/-- Escape a string for inclusion in JSON output. -/
def jsonEscape (s : String) : String :=
  String.join (s.data.map jsonEscapeChar)

mutual

/-- Model of `json.dumps` on a parsed value (compact separators; the
indentation that `indent=2` would add is elided, which does not affect
any property proved below). -/
def dumps : Jval → String
  | .jnull => "null"
  | .jbool true => "true"
  | .jbool false => "false"
  | .jint n => toString n
  | .jstr s => "\"" ++ jsonEscape s ++ "\""
  | .jarr l => "[" ++ dumpsList l ++ "]"
  | .jobj kvs => "\x7b" ++ dumpsObj kvs ++ "\x7d"

/-- Serialize the elements of a JSON array, comma-separated. -/
def dumpsList : List Jval → String
  | [] => ""
  | [v] => dumps v
  | v :: rest => dumps v ++ ", " ++ dumpsList rest

/-- Serialize the members of a JSON object, comma-separated. -/
def dumpsObj : List (String × Jval) → String
  | [] => ""
  | [(k, v)] => "\"" ++ jsonEscape k ++ "\": " ++ dumps v
  | (k, v) :: rest => "\"" ++ jsonEscape k ++ "\": " ++ dumps v ++ ", " ++ dumpsObj rest

end

/-! ### Python semantics helpers -/

mutual

/-- Model of Python `repr` on a parsed JSON value. -/
def pyRepr : Jval → String
  | .jnull => "None"
  | .jbool true => "True"
  | .jbool false => "False"
  | .jint n => toString n
  | .jstr s => "\x27" ++ s ++ "\x27"
  | .jarr l => "[" ++ pyReprList l ++ "]"
  | .jobj kvs => "\x7b" ++ pyReprObj kvs ++ "\x7d"

/-- `repr` of the elements of a Python list, comma-separated. -/
def pyReprList : List Jval → String
  | [] => ""
  | [v] => pyRepr v
  | v :: rest => pyRepr v ++ ", " ++ pyReprList rest

/-- `repr` of the members of a Python dict, comma-separated. -/
def pyReprObj : List (String × Jval) → String
  | [] => ""
  | [(k, v)] => "\x27" ++ k ++ "\x27: " ++ pyRepr v
  | (k, v) :: rest => "\x27" ++ k ++ "\x27: " ++ pyRepr v ++ ", " ++ pyReprObj rest

end

/-- Model of Python `str(x)` on a parsed JSON value. -/
def pyStr : Jval → String
  | .jstr s => s
  | v => pyRepr v

/-- Model of Python truthiness (`if x:`) on a parsed JSON value. -/
def pyTruthy : Jval → Bool
  | .jnull => false
  | .jbool b => b
  | .jint n => n != 0
  | .jstr s => s ≠ ""
  | .jarr l => !l.isEmpty
  | .jobj kvs => !kvs.isEmpty

/-- Lower-casing on the character list (model of `str.lower`). -/
def strToLower (s : String) : String := ⟨s.data.map Char.toLower⟩

/-- Model of `s.startswith(p)`. -/
def strStartsWith (s p : String) : Bool := p.data.isPrefixOf s.data

/-- Model of `s.endswith(p)`. -/
def strEndsWith (s p : String) : Bool := p.data.reverse.isPrefixOf s.data.reverse

/-- Drop the first `n` characters (model of `s[n:]`). -/
def strDrop (s : String) (n : Nat) : String := ⟨s.data.drop n⟩

/-- Drop the last `n` characters (model of `s[:-n]`). -/
def strDropRight (s : String) (n : Nat) : String := ⟨s.data.take (s.data.length - n)⟩

/-- Strip leading and trailing whitespace (model of `s.strip()`). -/
def strTrim (s : String) : String :=
  ⟨((s.data.dropWhile Char.isWhitespace).reverse.dropWhile Char.isWhitespace).reverse⟩

/-- Value of a list of decimal digits. -/
def digitsToNat (l : List Char) : Nat :=
  l.foldl (fun acc c => 10 * acc + (c.toNat - ('0' : Char).toNat)) 0

/-- Parse a non-empty all-digit string as a natural number. -/
def parseNat (s : String) : Option Nat :=
  if !s.data.isEmpty && s.data.all Char.isDigit then some (digitsToNat s.data) else none

/-- Replace every non-overlapping occurrence of `p :: ps` in the list,
left to right (the recursion of `str.replace`); `fuel` bounds the number
of steps and is at least the list length at every call. -/
def replaceGo (p : Char) (ps rep : List Char) : Nat → List Char → List Char
  | _, [] => []
  | 0, l => l
  | fuel + 1, c :: rest =>
      if (p :: ps).isPrefixOf (c :: rest) then rep ++ replaceGo p ps rep fuel (rest.drop ps.length)
      else c :: replaceGo p ps rep fuel rest

/-- Model of Python `s.replace(pat, rep)`: every non-overlapping
occurrence of `pat` in `s` is replaced by `rep` (not just a suffix). -/
def strReplace (s pat rep : String) : String :=
  match pat.data with
  | [] => s
  | p :: ps => ⟨replaceGo p ps rep.data s.data.length s.data⟩

/-- Model of Python `int(s)` on a string: strip whitespace, optional sign,
then decimal digits; `none` models the `ValueError`. -/
def pyIntOfString (s : String) : Option Int :=
  let t := strTrim s
  if strStartsWith t "-" then (parseNat (strDrop t 1)).map (fun n => -(n : Int))
  else if strStartsWith t "+" then (parseNat (strDrop t 1)).map (fun n => (n : Int))
  else (parseNat t).map (fun n => (n : Int))

/-- Model of Python `int(x)` on a parsed JSON value; `none` models the
`ValueError`/`TypeError` cases caught by the caller. -/
def pyInt : Jval → Option Int
  | .jint n => some n
  | .jbool true => some 1
  | .jbool false => some 0
  | .jstr s => pyIntOfString s
  | _ => none

/-- Whether `needle` occurs as a contiguous sublist of `haystack`. -/
def listSub (needle : List Char) : List Char → Bool
  | [] => needle.isEmpty
  | c :: rest => needle.isPrefixOf (c :: rest) || listSub needle rest

/-- Model of Python `haystack.__contains__(needle)` (the `in` operator on
strings). -/
def containsSub (haystack needle : String) : Bool :=
  listSub needle.data haystack.data

/-- Model of Python `d.get(key, default)`: succeeds on a dict (JSON
object), raises `AttributeError` on any other receiver. -/
def dictGet (v : Jval) (key : String) (dflt : Jval) : Except String Jval :=
  match v with
  | .jobj kvs => .ok ((kvs.lookup key).getD dflt)
  | _ => .error "AttributeError: object has no attribute get"

/-- Whether an `Except` computation succeeded. -/
def isOkE {ε α : Type} : Except ε α → Bool
  | .ok _ => true
  | .error _ => false

/-! ### `ingest_seeds.py` — seed corpus indexer -/

/-- The metadata record `build_metadata_dict` produces for ChromaDB
(`ingest_seeds.py`).  `primary_friction` is kept as a `Jval` because the
source stores `modification[0]` without converting it to `str`. -/
structure Metadata where
  complexity_score : Int
  outcome : String
  has_skilled_need : String
  primary_friction : Jval
  raw_json : String
deriving Repr

/-- One upserted index entry: id, searchable document string, metadata. -/
structure IngestEntry where
  id : Jval
  document : String
  metadata : Metadata
deriving Repr

/-- Check that every element of a JSON array is a string, returning the
strings; models the implicit type requirement of `"; ".join(...)`. -/
def asStrList : List Jval → Option (List String)
  | [] => some []
  | .jstr s :: rest => (asStrList rest).map (fun l => s :: l)
  | _ => none

/-- Model of Python `sep.join(l)`: raises `TypeError` unless every list
item is a string. -/
def pyJoin (sep : String) (l : List Jval) : Except String String :=
  match asStrList l with
  | some strs => .ok (String.intercalate sep strs)
  | none => .error "TypeError: sequence item is not a str instance"

/-- Summaries of the reasoning-trace triples used inside
`build_document_string`: each triple contributes a summary when its
`situation` or `intent` is truthy. -/
def tripleSummaries : List Jval → Except String (List String)
  | [] => .ok []
  | t :: rest => do
      let situation ← dictGet t "situation" (jstr "")
      let intent ← dictGet t "intent" (jstr "")
      let tail ← tripleSummaries rest
      if pyTruthy situation || pyTruthy intent then
        .ok ((pyStr situation ++ " [" ++ pyStr intent ++ "]") :: tail)
      else
        .ok tail

/-- Model of `build_document_string` from `ingest_seeds.py`: concatenates
clinical barriers, physical barriers, reasoning-triple summaries and
chaos signals into one searchable string. -/
def build_document_string (data : Jval) : Except String String := do
  let clinical ← dictGet data "clinical_logic" (jobj [])
  let clinical_barriers ← dictGet clinical "clinical_barriers" (jarr [])
  let parts1 : List String ←
    match clinical_barriers with
    | .jarr l => do
        let s ← pyJoin "; " l
        pure ["Clinical Barriers: " ++ s]
    | .jstr s => pure ["Clinical Barriers: " ++ s]
    | _ => pure []
  let env ← dictGet data "environmental_logic" (jobj [])
  let physical_barriers ← dictGet env "physical_barriers" (jstr "")
  let parts2 : List String ←
    if pyTruthy physical_barriers then
      match physical_barriers with
      | .jstr s => pure (parts1 ++ ["Physical Barriers: " ++ s])
      | _ => .error "TypeError: can only concatenate str"
    else pure parts1
  let triples ← dictGet data "reasoning_trace_triples" (jarr [])
  let parts3 : List String ←
    match triples with
    | .jarr l => do
        let sums ← tripleSummaries l
        if sums.isEmpty then pure parts2
        else pure (parts2 ++ ["Reasoning: " ++ String.intercalate "; " sums])
    | .jstr s =>
        if s = "" then pure parts2
        else .error "AttributeError: str object has no attribute get"
    | .jobj kvs =>
        if kvs.isEmpty then pure parts2
        else .error "AttributeError: str object has no attribute get"
    | _ => .error "TypeError: object is not iterable"
  let chaos ← dictGet data "unscripted_chaos_signals" (jarr [])
  let parts4 : List String ←
    match chaos with
    | .jarr l => do
        let s ← pyJoin "; " l
        pure (parts3 ++ ["Chaos Signals: " ++ s])
    | .jstr s => pure (parts3 ++ ["Chaos Signals: " ++ s])
    | _ => pure parts3
  .ok (String.intercalate " | " parts4)

/-- Model of `build_metadata_dict` from `ingest_seeds.py`: coerces header
fields to scalar metadata, with `try/except`-style fallbacks. -/
def build_metadata_dict (data : Jval) (raw_json : String) : Except String Metadata := do
  let header ← dictGet data "case_header" (jobj [])
  let clinical ← dictGet data "clinical_logic" (jobj [])
  let env ← dictGet data "environmental_logic" (jobj [])
  let cVal ← dictGet header "complexity_score" (jint 0)
  let complexity_score : Int := (pyInt cVal).getD 0
  let oVal ← dictGet header "outcome" (jstr "Unknown")
  let outcome := pyStr oVal
  let sVal ← dictGet clinical "skilled_need_verified" (jstr "No")
  let has_skilled_need :=
    if ["yes", "true", "1"].contains (strToLower (strTrim (pyStr sVal))) then "Yes" else "No"
  let mVal ← dictGet env "modification_type" (jstr "")
  let primary_friction : Jval :=
    match mVal with
    | .jarr [] => jstr "Unknown"
    | .jarr (x :: _) => x
    | m => if pyTruthy m then jstr (pyStr m) else jstr "Unknown"
  .ok ⟨complexity_score, outcome, has_skilled_need, primary_friction, raw_json⟩

/-- Processing of one seed file inside the `ingest_seed_cases` loop:
`json.load` (its failure modelled by the `none` input), then case-id
extraction, document-string construction and metadata construction.
An uncaught exception is an `Except.error`. -/
def processSeedFile (filename : String) (parsed : Option Jval) : Except String IngestEntry := do
  match parsed with
  | none => .error ("json.decoder.JSONDecodeError in " ++ filename)
  | some data => do
      let hdr ← dictGet data "case_header" (jobj [])
      let case_id ← dictGet hdr "case_id" (jstr (strReplace filename ".json" ""))
      let document_string ← build_document_string data
      let raw_json := dumps data
      let metadata ← build_metadata_dict data raw_json
      .ok ⟨case_id, document_string, metadata⟩

/-- Model of the `ingest_seed_cases` loop from `ingest_seeds.py`: each
`.json` file is loaded and processed in order; any uncaught exception
aborts the whole loop (there is no `try/except` around the per-file
work), so nothing at all is upserted in that run. -/
def ingest_seed_cases : List (String × Option Jval) → Except String (List IngestEntry)
  | [] => .ok []
  | (fn, p) :: rest => do
      let e ← processSeedFile fn p
      let es ← ingest_seed_cases rest
      .ok (e :: es)

/-! ### `generate_synthetic.py` — Pydantic output schema

The four Pydantic models are embedded as decidable validators on parsed
JSON values, with Pydantic's lax-mode semantics for the field types the
source declares: a `str` field accepts exactly a JSON string, a
`Literal[...]` field accepts exactly one of the enumerated strings, a
`List[Model]` field accepts exactly a JSON array of values each valid
for `Model`, a missing required field is an error, and extra fields are
ignored. -/

/-- Field lookup in a parsed JSON object. -/
def getField (kvs : List (String × Jval)) (k : String) : Option Jval :=
  kvs.lookup k

/-- A required `str` field: present and a JSON string. -/
def fieldIsStr (kvs : List (String × Jval)) (k : String) : Bool :=
  match getField kvs k with
  | some (.jstr _) => true
  | _ => false

/-- A required `Literal[...]` field: present and equal to one of the
enumerated strings. -/
def fieldIsLiteral (kvs : List (String × Jval)) (k : String) (vals : List String) : Bool :=
  match getField kvs k with
  | some (.jstr s) => vals.contains s
  | _ => false

/-- Validator for the `StateLogEntry` Pydantic model. -/
def validate_state_log_entry : Jval → Bool
  | .jobj kvs =>
      fieldIsStr kvs "event_description" &&
      fieldIsLiteral kvs "clinical_impact" ["Improves", "Worsens", "Unchanged"] &&
      fieldIsLiteral kvs "environmental_impact" ["Improves", "Worsens", "Unchanged"] &&
      fieldIsLiteral kvs "service_adoption_impact" ["Positive", "Negative", "Unchanged"] &&
      fieldIsStr kvs "edd_delta" &&
      fieldIsStr kvs "ai_assumed_bottleneck"
  | _ => false

/-- Validator for the `ReasoningTriple` Pydantic model. -/
def validate_reasoning_triple : Jval → Bool
  | .jobj kvs =>
      fieldIsStr kvs "situation" &&
      fieldIsStr kvs "action_taken" &&
      fieldIsStr kvs "taxonomy_category" &&
      fieldIsStr kvs "tactical_field_intent"
  | _ => false

/-- Validator for the `RLScenarioOption` Pydantic model. -/
def validate_rl_option : Jval → Bool
  | .jobj kvs =>
      fieldIsLiteral kvs "ai_intended_category" ["Passive", "Proactive", "Overstep"] &&
      fieldIsStr kvs "description" &&
      fieldIsStr kvs "rationale"
  | _ => false

/-- A required `List[Model]` field: present, a JSON array, every element
valid for the given element validator. -/
def fieldIsListOf (kvs : List (String × Jval)) (k : String) (elem : Jval → Bool) : Bool :=
  match getField kvs k with
  | some (.jarr l) => l.all elem
  | _ => false

/-- Validator for the `SyntheticCaseOutput` Pydantic model, the model of
`SyntheticCaseOutput.model_validate(data)` succeeding. -/
def model_validate : Jval → Bool
  | .jobj kvs =>
      fieldIsListOf kvs "format_1_state_log" validate_state_log_entry &&
      fieldIsListOf kvs "format_2_triples" validate_reasoning_triple &&
      fieldIsListOf kvs "format_3_rl_scenario" validate_rl_option &&
      fieldIsStr kvs "narrative_summary"
  | _ => false

/-- `model_dump()` of one validated `StateLogEntry` (declared fields, in
declaration order). -/
def dump_state_log_entry : Jval → Jval
  | .jobj kvs => .jobj
      [("event_description", (getField kvs "event_description").getD .jnull),
       ("clinical_impact", (getField kvs "clinical_impact").getD .jnull),
       ("environmental_impact", (getField kvs "environmental_impact").getD .jnull),
       ("service_adoption_impact", (getField kvs "service_adoption_impact").getD .jnull),
       ("edd_delta", (getField kvs "edd_delta").getD .jnull),
       ("ai_assumed_bottleneck", (getField kvs "ai_assumed_bottleneck").getD .jnull)]
  | v => v

/-- `model_dump()` of one validated `ReasoningTriple`. -/
def dump_reasoning_triple : Jval → Jval
  | .jobj kvs => .jobj
      [("situation", (getField kvs "situation").getD .jnull),
       ("action_taken", (getField kvs "action_taken").getD .jnull),
       ("taxonomy_category", (getField kvs "taxonomy_category").getD .jnull),
       ("tactical_field_intent", (getField kvs "tactical_field_intent").getD .jnull)]
  | v => v

/-- `model_dump()` of one validated `RLScenarioOption`. -/
def dump_rl_option : Jval → Jval
  | .jobj kvs => .jobj
      [("ai_intended_category", (getField kvs "ai_intended_category").getD .jnull),
       ("description", (getField kvs "description").getD .jnull),
       ("rationale", (getField kvs "rationale").getD .jnull)]
  | v => v

/-- Model of `validated.model_dump()` for a validated
`SyntheticCaseOutput`: the four declared fields, extra keys dropped. -/
def model_dump : Jval → Jval
  | .jobj kvs => .jobj
      [("format_1_state_log",
         match getField kvs "format_1_state_log" with
         | some (.jarr l) => .jarr (l.map dump_state_log_entry)
         | v => v.getD .jnull),
       ("format_2_triples",
         match getField kvs "format_2_triples" with
         | some (.jarr l) => .jarr (l.map dump_reasoning_triple)
         | v => v.getD .jnull),
       ("format_3_rl_scenario",
         match getField kvs "format_3_rl_scenario" with
         | some (.jarr l) => .jarr (l.map dump_rl_option)
         | v => v.getD .jnull),
       ("narrative_summary", (getField kvs "narrative_summary").getD .jnull)]
  | v => v

/-! ### `generate_synthetic.py` — retrieval -/

/-- One indexed entry of the ChromaDB collection (id, embedded document
string, metadata), as produced by ingestion. -/
structure IndexedEntry where
  id : Jval
  document : String
  metadata : Metadata
deriving Repr

/-- Insert an entry into a similarity-sorted (descending) list. -/
def simInsert (key : IndexedEntry → Int) (e : IndexedEntry) :
    List IndexedEntry → List IndexedEntry
  | [] => [e]
  | x :: xs => if key e ≤ key x then x :: simInsert key e xs else e :: x :: xs

/-- Sort entries by descending similarity key (insertion sort). -/
def sortBySimDesc (key : IndexedEntry → Int) : List IndexedEntry → List IndexedEntry
  | [] => []
  | x :: xs => simInsert key x (sortBySimDesc key xs)

/-- Modelled from the spec: `collection.query` of the vector index
(external chromadb, not in `src/`) — a metadata-filtered
nearest-neighbor query returning the metadatas of at most `n_results`
entries whose `complexity_score` passes the `$gte` filter, ordered by
descending semantic similarity of their documents to the query text
(spec §4.2, §6); `sim` is the similarity measure. -/
def collection_query (sim : String → String → Int) (coll : List IndexedEntry)
    (query_text : String) (n_results : Nat) (complexity_gte : Int) : List Metadata :=
  ((sortBySimDesc (fun e => sim query_text e.document)
      (coll.filter (fun e => complexity_gte ≤ e.metadata.complexity_score))).map
    (fun e => e.metadata)).take n_results

/-- Model of `retrieve_few_shot_examples` from `generate_synthetic.py`:
query the collection, then keep the deserializable `raw_json` payloads
(`try json.loads ... except: pass`); `loads` is the JSON parser. -/
def retrieve_few_shot_examples (loads : String → Option Jval)
    (sim : String → String → Int) (coll : List IndexedEntry)
    (complexity_gte : Int) (query_text : String) (n : Nat) : List Jval :=
  (collection_query sim coll query_text n complexity_gte).filterMap
    (fun m => if m.raw_json = "" then none else loads m.raw_json)

/-! ### `generate_synthetic.py` — saving, prompt composition -/

/-- Model of Python `s.removeprefix(p)`. -/
def dropLead (s p : String) : String :=
  if strStartsWith s p then strDrop s p.data.length else s

/-- Model of Python `s.removesuffix(p)`. -/
def dropTail (s p : String) : String :=
  if strEndsWith s p then strDropRight s p.data.length else s

/-- Model of the markdown-fence stripping applied to the raw model
response in both `validate_and_save` (`generate_synthetic.py`) and the
batch loop (`generate_batch_25.py`). -/
def strip_fences (raw_text : String) : String :=
  strTrim (dropTail (dropLead (dropLead (strTrim raw_text) "```json") "```") "```")

/-- Zero-padded two-digit rendering of a number (Python `f"{n:02d}"`). -/
def pad2 (n : Nat) : String :=
  if n < 10 then "0" ++ toString n else toString n

/-- Output path of one succeeded case in `generate_batch_25.py`
(lines 99-101): it depends only on the zero-based case index `i`. -/
def batch25_out_path (i : Nat) : String :=
  "./data/synthetic_batch_25/case_" ++ pad2 (i + 1) ++ ".json"

/-- Output path used by `validate_and_save` in `generate_synthetic.py`:
it embeds the per-run timestamp (`%Y%m%d_%H%M%S`) and the one-based run
index. -/
def synthetic_out_path (timestamp : String) (run_index : Nat) : String :=
  "./data/synthetic_output/synthetic_case_" ++ timestamp ++ "_" ++ toString run_index ++ ".json"

/-- Model of `validate_and_save` from `generate_synthetic.py`: strip
fences, parse (`loads` is the JSON parser; `none` is a parse failure),
validate with the Pydantic model, and only then write the output file.
The returned list is the files written ((path, content) pairs). -/
def validate_and_save (loads : String → Option Jval) (raw_text : String)
    (run_index : Nat) (timestamp : String) : Option Jval × List (String × String) :=
  match loads (strip_fences raw_text) with
  | none => (none, [])
  | some data =>
      if model_validate data then
        (some data,
         [(synthetic_out_path timestamp run_index, dumps (model_dump data))])
      else (none, [])

/-- Constant model of
`json.dumps(SyntheticCaseOutput.model_json_schema(), indent=2)`: the
schema text is a fixed string, identical on every call. -/
def schema_str : String :=
  "JSON schema of SyntheticCaseOutput: required fields format_1_state_log, " ++
  "format_2_triples, format_3_rl_scenario, narrative_summary"

/-- Model of `build_prompt` from `generate_synthetic.py`: deterministic
assembly of the generation prompt from the three taxonomies, the
retrieved exemplars and the target variables.  The serialized structured
inputs appear through `dumps`; the long literal rule text of the source
is carried over with its structure (section markers, rules 1-10, the
negative/positive constraint lists). -/
def build_prompt (friction_taxonomy action_taxonomy outcome_taxonomy : Jval)
    (few_shot_examples : List Jval) (target_patient target_friction : String) : String :=
  let friction_str := dumps friction_taxonomy
  let action_str := dumps action_taxonomy
  let outcome_str := dumps outcome_taxonomy
  let examples_str := dumps (jarr few_shot_examples)
  strTrim (String.intercalate "\n"
    ["", "=== STATIC TAXONOMIES ===", "",
     "--- Friction Taxonomy (defines allowable time delays) ---",
     friction_str, "",
     "--- Action Taxonomy (defines Rank 1 success intents) ---",
     action_str, "",
     "--- Outcome Taxonomy (defines state transition triggers) ---",
     outcome_str, "",
     "=== FEW-SHOT REFERENCE CASES ===", "",
     "Here are " ++ toString few_shot_examples.length ++ " real-world seed cases. Mimic their level of",
     "clinical detail, operational chaos, and formatting exactly:", "",
     examples_str, "",
     "=== TASK ===", "",
     "Generate 1 NEW synthetic patient case with the following target variables:", "",
     "- Patient: " ++ target_patient,
     "- Main Friction: " ++ target_friction, "",
     "You MUST strictly output valid JSON conforming to this schema and NO other text:", "",
     schema_str, "",
     "Rules:",
     "1. All edd_delta values must reference a delay from the Friction Taxonomy.",
     "2. The ai_assumed_bottleneck must be a specific, testable claim about a HOME HEALTH TRANSITION barrier.", "",
     "NEGATIVE CONSTRAINTS (What a PN NEVER does):",
     "- The PN NEVER touches F2F forms, clinical documentation, or the EMR.",
     "- The PN NEVER calls insurance companies for authorization.",
     "- The PN NEVER calls or leads facility team meetings.",
     "- The PN NEVER interrupts doctors during rounds or gathers charts from the nurse station.",
     "- The PN NEVER proves cost analysis of home care vs LTC.",
     "- The PN NEVER tells families to refuse discharge or go Against Medical Advice (AMA).", "",
     "POSITIVE CONSTRAINTS (What a PN ACTUALLY does):",
     "- The PN focuses entirely on Home Health Agency (HHA) coordination and transition logistics.",
     "- Valid PN friction includes: HHA weekend admission scheduling limits, delays in Durable Medical Equipment (DME) delivery to the home, family caregiver training gaps, or discrepancies in the medication list at handoff.", "",
     "Rules for Format 2 (Triples):",
     "3. The situation must involve a specific stakeholder bottleneck WITHIN THE PN SCOPE.",
     "4. The action_taken must be a specific field maneuver that a PN would realistically take, not a Social Worker action.",
     "5. The tactical_field_intent MUST contain a political or operational trade-off that a 20-year PN veteran could debate.", "",
     "Rules for Format 3 (RL Scenarios):",
     "6. The format_3_rl_scenario MUST contain exactly THREE options for a single difficult dilemma.",
     "7. You must generate one Passive option, one Proactive option, and one Overstep option.",
     "8. CRITICAL: The description for all three options must sound highly professional, reasonable, and tempting.",
     "9. narrative_summary must be 3-5 sentences capturing the home health transition arc, not the facility discharge process.",
     "10. Output ONLY the JSON object. Do not include markdown fences, explanation, or commentary."])

/-! ### `generate_batch_25.py` — batch orchestrator and retry loop -/

/-- Result of one call to the external generator inside the `try` block:
either raises an exception with a message, or returns raw response
text. -/
inductive GenResult where
  | raises : String → GenResult
  | returns : String → GenResult
deriving Repr

/-- Rate-limit detection from `generate_batch_25.py`:
`"429" in err or "rate" in err.lower()`. -/
def is_rate_limit (err : String) : Bool :=
  containsSub err "429" || containsSub (strToLower err) "rate"

/-- One attempt body for case `case_i` (the `try` block of the retry
loop in `generate_batch_25.py`): call the generator, strip fences,
parse, validate, then write `case_{i+1:02d}.json`.  An `Except.error`
carries the exception message the `except` clause receives. -/
def attempt_once (loads : String → Option Jval) (case_i : Nat) (g : GenResult) :
    Except String (String × String) :=
  match g with
  | .raises msg => .error msg
  | .returns raw =>
      match loads (strip_fences raw) with
      | none => .error "Expecting value: line 1 column 1 (char 0)"
      | some data =>
          if model_validate data then
            .ok (batch25_out_path case_i, dumps (model_dump data))
          else .error "1 validation error for SyntheticCaseOutput"

/-- The mutable state of the per-case retry loop: whether the loop was
exited by `break`, the attempts made, the success/failure counter
deltas, the sleeps performed, and the files written. -/
structure LoopState where
  done : Bool
  attempts : Nat
  succ : Nat
  fail : Nat
  sleeps : List Nat
  writes : List (String × String)
deriving Repr, DecidableEq

/-- The initial retry-loop state for one case. -/
def initLoopState : LoopState := ⟨false, 0, 0, 0, [], []⟩

/-- One iteration of `for attempt in range(3)` from
`generate_batch_25.py`: on success, persist and `break`; on a rate-limit
error, sleep `60 * (attempt + 1)`; on any other error, count a failure
if this was the last attempt (`attempt == 2`), otherwise sleep 5. -/
def attempt_step (loads : String → Option Jval) (gens : Nat → GenResult)
    (case_i : Nat) (s : LoopState) (attempt : Nat) : LoopState :=
  if s.done then s
  else
    match attempt_once loads case_i (gens attempt) with
    | .ok w =>
        { s with done := true, attempts := s.attempts + 1, succ := s.succ + 1,
                 writes := s.writes ++ [w] }
    | .error e =>
        if is_rate_limit e then
          { s with attempts := s.attempts + 1, sleeps := s.sleeps ++ [60 * (attempt + 1)] }
        else if attempt == 2 then
          { s with attempts := s.attempts + 1, fail := s.fail + 1 }
        else
          { s with attempts := s.attempts + 1, sleeps := s.sleeps ++ [5] }

/-- The whole retry loop for one case: `for attempt in range(3)` with
early exit on success, as in `generate_batch_25.py` lines 90-117. -/
def run_case_attempts (loads : String → Option Jval) (gens : Nat → GenResult)
    (case_i : Nat) : LoopState :=
  (List.range 3).foldl (attempt_step loads gens case_i) initLoopState

/-- The whole 25-case batch of `generate_batch_25.py`: per case the
retry loop runs with that case's generator behaviour
(`gens case_i attempt`), and the success/failure counters and writes
accumulate.  Returns (successes, failures, files written). -/
def batch25_run (loads : String → Option Jval) (gens : Nat → Nat → GenResult) :
    Nat × Nat × List (String × String) :=
  (List.range 25).foldl
    (fun acc i =>
      let st := run_case_attempts loads (gens i) i
      (acc.1 + st.succ, acc.2.1 + st.fail, acc.2.2 ++ st.writes))
    (0, 0, [])

/-! ### Concrete records and spec-side predicates used by the theorems -/

/-- A seed document whose only top-level field is a `case_header` with
the given fields (used to examine header-field coercion). -/
def mkSeedDoc (hdr : List (String × Jval)) : Jval := jobj [("case_header", jobj hdr)]

/-- An RL scenario option with a valid category and empty free-text
fields. -/
def sampleOption : Jval := jobj
  [("ai_intended_category", jstr "Proactive"), ("description", jstr ""), ("rationale", jstr "")]

/-- A fully well-typed state log entry. -/
def sampleStateLogEntry : Jval := jobj
  [("event_description", jstr "HHA intake delayed"),
   ("clinical_impact", jstr "Unchanged"),
   ("environmental_impact", jstr "Worsens"),
   ("service_adoption_impact", jstr "Negative"),
   ("edd_delta", jstr "+30 Days"),
   ("ai_assumed_bottleneck", jstr "Intake coordinator works Mon-Fri")]

/-- A fully well-typed reasoning triple. -/
def sampleTriple : Jval := jobj
  [("situation", jstr "HHA not returning calls"),
   ("action_taken", jstr "Called the branch scheduler directly"),
   ("taxonomy_category", jstr "Escalation"),
   ("tactical_field_intent", jstr "Lock in the admission slot before the weekend")]

/-- An RL scenario option with the given category and free texts. -/
def wf_option (cat d r : String) : Jval := jobj
  [("ai_intended_category", jstr cat), ("description", jstr d), ("rationale", jstr r)]

/-- A record with one valid state log entry, one valid triple, `k`
copies of `sampleOption` as RL scenario, and an empty narrative. -/
def mkRecord (k : Nat) : Jval := jobj
  [("format_1_state_log", jarr [sampleStateLogEntry]),
   ("format_2_triples", jarr [sampleTriple]),
   ("format_3_rl_scenario", jarr (List.replicate k sampleOption)),
   ("narrative_summary", jstr "")]

/-- A fully well-formed synthetic case record (three options, one of
each category, all free text non-empty). -/
def wf_record : Jval := jobj
  [("format_1_state_log", jarr [sampleStateLogEntry]),
   ("format_2_triples", jarr [sampleTriple]),
   ("format_3_rl_scenario", jarr [wf_option "Passive" "Wait for the SW to handle setup" "Fails to follow up on HHA setup",
                                  wf_option "Proactive" "Confirm the HHA admission date" "A field action within scope",
                                  wf_option "Overstep" "Call the patient insurer" "Does the Social Worker job"]),
   ("narrative_summary", jstr "A three sentence arc. It continues. It ends.")]

/-- `wf_record` with the `narrative_summary` field absent. -/
def record_missing_narrative : Jval := jobj
  [("format_1_state_log", jarr [sampleStateLogEntry]),
   ("format_2_triples", jarr [sampleTriple]),
   ("format_3_rl_scenario", jarr [wf_option "Passive" "Wait for the SW to handle setup" "Fails to follow up on HHA setup",
                                  wf_option "Proactive" "Confirm the HHA admission date" "A field action within scope",
                                  wf_option "Overstep" "Call the patient insurer" "Does the Social Worker job"])]

/-- `wf_record` with an out-of-enum `clinical_impact` value in its state
log entry. -/
def record_bad_impact : Jval := jobj
  [("format_1_state_log", jarr
      [jobj [("event_description", jstr "HHA intake delayed"),
             ("clinical_impact", jstr "Degrades"),
             ("environmental_impact", jstr "Worsens"),
             ("service_adoption_impact", jstr "Negative"),
             ("edd_delta", jstr "+30 Days"),
             ("ai_assumed_bottleneck", jstr "Intake coordinator works Mon-Fri")]]),
   ("format_2_triples", jarr [sampleTriple]),
   ("format_3_rl_scenario", jarr [wf_option "Passive" "Wait for the SW to handle setup" "Fails to follow up on HHA setup",
                                  wf_option "Proactive" "Confirm the HHA admission date" "A field action within scope",
                                  wf_option "Overstep" "Call the patient insurer" "Does the Social Worker job"]),
   ("narrative_summary", jstr "A three sentence arc. It continues. It ends.")]

/-- Spec-side requirement on a field: present and a non-empty string. -/
def specFieldNonEmptyStr (kvs : List (String × Jval)) (k : String) : Bool :=
  match kvs.lookup k with
  | some (.jstr s) => s ≠ ""
  | _ => false

/-- Spec-side requirement on a field: present and a string. -/
def specFieldStr (kvs : List (String × Jval)) (k : String) : Bool :=
  match kvs.lookup k with
  | some (.jstr _) => true
  | _ => false

/-- Spec-side requirement on an enum field: present and drawn from the
declared value set. -/
def specFieldEnum (kvs : List (String × Jval)) (k : String) (vals : List String) : Bool :=
  match kvs.lookup k with
  | some (.jstr s) => vals.contains s
  | _ => false

/-- Spec-side well-typedness of one timeline event (spec §3, §4.6). -/
def specStateEntry : Jval → Bool
  | .jobj kvs =>
      specFieldStr kvs "event_description" &&
      specFieldEnum kvs "clinical_impact" ["Improves", "Worsens", "Unchanged"] &&
      specFieldEnum kvs "environmental_impact" ["Improves", "Worsens", "Unchanged"] &&
      specFieldEnum kvs "service_adoption_impact" ["Positive", "Negative", "Unchanged"] &&
      specFieldStr kvs "edd_delta" &&
      specFieldStr kvs "ai_assumed_bottleneck"
  | _ => false

/-- Spec-side well-typedness of one reasoning triple (spec §3, §4.6). -/
def specTriple : Jval → Bool
  | .jobj kvs =>
      specFieldStr kvs "situation" &&
      specFieldStr kvs "action_taken" &&
      specFieldStr kvs "taxonomy_category" &&
      specFieldStr kvs "tactical_field_intent"
  | _ => false

/-- Spec-side well-formedness of one RL scenario option: a category
drawn from the three declared values and both free-text fields present
and non-empty (spec §4.6). -/
def specOption : Jval → Bool
  | .jobj kvs =>
      specFieldEnum kvs "ai_intended_category" ["Passive", "Proactive", "Overstep"] &&
      specFieldNonEmptyStr kvs "description" &&
      specFieldNonEmptyStr kvs "rationale"
  | _ => false

/-- Spec-side definition of a fully well-formed record, following the
words of the validator contract (spec §4.6): all four top-level fields
present, `format_1_state_log` and `format_2_triples` non-empty
sequences of well-typed records, `format_3_rl_scenario` exactly three
well-formed options, `narrative_summary` non-empty text. -/
def spec_well_formed : Jval → Bool
  | .jobj kvs =>
      (match kvs.lookup "format_1_state_log" with
       | some (.jarr l) => !l.isEmpty && l.all specStateEntry
       | _ => false) &&
      (match kvs.lookup "format_2_triples" with
       | some (.jarr l) => !l.isEmpty && l.all specTriple
       | _ => false) &&
      (match kvs.lookup "format_3_rl_scenario" with
       | some (.jarr l) => l.length == 3 && l.all specOption
       | _ => false) &&
      specFieldNonEmptyStr kvs "narrative_summary"
  | _ => false

/-- JSON parser stub used in concrete runs: recognizes the single raw
text "RAWOK" as the well-formed record. -/
def loads0 : String → Option Jval := fun s => if s = "RAWOK" then some wf_record else none

/-- Generator behaviour of a first concrete batch run: case 0 returns a
valid response on its first attempt, every other case always raises. -/
def run_gens_A : Nat → Nat → GenResult :=
  fun i _ => if i = 0 then .returns "RAWOK" else .raises "boom"

/-- Generator behaviour of a second, different batch run: case 0 raises
on its first attempt and returns a valid response on its second. -/
def run_gens_B : Nat → Nat → GenResult :=
  fun i a => if i = 0 then (if a = 1 then .returns "RAWOK" else .raises "boom") else .raises "boom"

/-- JSON parser stub for concrete retrieval runs: only the payload "GOOD"
deserializes. -/
def loadsW2 : String → Option Jval := fun s => if s = "GOOD" then some (jstr "g") else none

/-- Similarity stub for concrete retrieval runs: ranks the malformed-payload
document first. -/
def simW2 : String → String → Int := fun _ d => if d = "bad doc" then 9 else 1

/-- Two-entry collection for concrete retrieval runs: the higher-ranked entry
carries an undeserializable payload. -/
def collW2 : List IndexedEntry :=
  [⟨jstr "BADCASE", "bad doc", ⟨7, "Unknown", "No", jstr "Unknown", "BAD"⟩⟩,
   ⟨jstr "GOODCASE", "good doc", ⟨5, "Unknown", "No", jstr "Unknown", "GOOD"⟩⟩]

/-! ### Helper lemmas -/

lemma string_of_data_eq (s t : String) (h : s.data = t.data) : s = t := by
  cases s; cases t; exact congrArg String.mk h

lemma attempt_once_ok_shape (loads : String → Option Jval) (i : Nat) (g : GenResult)
    (w : String × String) (h : attempt_once loads i g = .ok w) :
    ∃ j, model_validate j = true ∧ w = (batch25_out_path i, dumps (model_dump j)) := by
  cases g with
  | raises m => simp [attempt_once] at h
  | returns raw =>
      simp only [attempt_once] at h
      cases hl : loads (strip_fences raw) with
      | none => rw [hl] at h; simp at h
      | some data =>
          rw [hl] at h
          change (if model_validate data = true then
              Except.ok (batch25_out_path i, dumps (model_dump data))
            else Except.error "1 validation error for SyntheticCaseOutput") = Except.ok w at h
          by_cases hv : model_validate data = true
          · rw [if_pos hv] at h
            exact ⟨data, hv, (Except.ok.inj h).symm⟩
          · rw [if_neg hv] at h; simp at h

lemma foldl_writes_inv (loads : String → Option Jval) (gens : Nat → GenResult) (ci : Nat)
    (P : String × String → Prop)
    (hP : ∀ a w, attempt_once loads ci (gens a) = .ok w → P w) :
    ∀ (l : List Nat) (s : LoopState), (∀ w ∈ s.writes, P w) →
      ∀ w ∈ (l.foldl (attempt_step loads gens ci) s).writes, P w := by
  intro l
  induction l with
  | nil => intro s hs; exact hs
  | cons a t ih =>
      intro s hs
      apply ih
      intro w hw
      unfold attempt_step at hw
      by_cases hd : s.done = true
      · rw [if_pos hd] at hw; exact hs w hw
      · rw [if_neg hd] at hw
        cases h : attempt_once loads ci (gens a) with
        | ok w2 =>
            rw [h] at hw
            change w ∈ s.writes ++ [w2] at hw
            rcases List.mem_append.mp hw with hw | hw
            · exact hs w hw
            · exact (List.mem_singleton.mp hw) ▸ hP a w2 h
        | error e =>
            rw [h] at hw
            change w ∈ (if is_rate_limit e = true then
                { s with attempts := s.attempts + 1, sleeps := s.sleeps ++ [60 * (a + 1)] }
              else if (a == 2) = true then
                { s with attempts := s.attempts + 1, fail := s.fail + 1 }
              else
                { s with attempts := s.attempts + 1, sleeps := s.sleeps ++ [5] } : LoopState).writes at hw
            by_cases hr : is_rate_limit e = true
            · rw [if_pos hr] at hw; exact hs w hw
            · rw [if_neg hr] at hw
              by_cases ha : (a == 2) = true
              · rw [if_pos ha] at hw; exact hs w hw
              · rw [if_neg ha] at hw; exact hs w hw

lemma run_case_writes (loads : String → Option Jval) (gens : Nat → GenResult) (ci : Nat) :
    ∀ w ∈ (run_case_attempts loads gens ci).writes,
      ∃ j, model_validate j = true ∧ w = (batch25_out_path ci, dumps (model_dump j)) := by
  unfold run_case_attempts
  exact foldl_writes_inv loads gens ci _
    (fun a w h => attempt_once_ok_shape loads ci (gens a) w h)
    (List.range 3) initLoopState (by intro w hw; simp [initLoopState] at hw)

lemma synthetic_out_path_inj (ts ts2 : String) (i i2 : Nat)
    (hlen : ts.length = ts2.length)
    (h : synthetic_out_path ts i = synthetic_out_path ts2 i2) : ts = ts2 := by
  unfold synthetic_out_path at h
  have hd := congrArg String.data h
  simp only [String.data_append, List.append_assoc] at hd
  have h2 := List.append_cancel_left hd
  exact string_of_data_eq _ _ (List.append_inj h2 hlen).1

/-! ### C4 -/

/-- C4 counterexample: two different runs of the 25-case batch (their
generator behaviours differ) both persist case 1 under the same output
file identifier, so the later run overwrites the earlier run's file —
the identifier sets collide. -/
theorem rerun_collision_cex :
    run_gens_A ≠ run_gens_B ∧
    (batch25_run loads0 run_gens_A).2.2.map Prod.fst = [batch25_out_path 0] ∧
    (batch25_run loads0 run_gens_B).2.2.map Prod.fst = [batch25_out_path 0] := by
  refine ⟨?_, by decide, by decide⟩
  intro h
  have h0 := congrFun (congrFun h 0) 0
  simp [run_gens_A, run_gens_B] at h0

/-- C4 amended: in `generate_batch_25.py` the output file identifier of a
case is derived only from the case index (so every re-run reuses and
overwrites the same identifiers), while the `validate_and_save` path of
`generate_synthetic.py` embeds the per-run timestamp and two runs with
distinct equal-length timestamps can never collide. -/
theorem output_path_amended :
    (∀ (loads : String → Option Jval) (gens : Nat → GenResult) (i : Nat),
        ∀ w ∈ (run_case_attempts loads gens i).writes, w.1 = batch25_out_path i) ∧
    (∀ (ts ts2 : String) (i i2 : Nat), ts.length = ts2.length → ts ≠ ts2 →
        synthetic_out_path ts i ≠ synthetic_out_path ts2 i2) := by
  constructor
  · intro loads gens i w hw
    obtain ⟨j, _, hj⟩ := run_case_writes loads gens i w hw
    rw [hj]
  · intro ts ts2 i i2 hlen hne h
    exact hne (synthetic_out_path_inj ts ts2 i i2 hlen h)

/-- Witness for the amended C4 theorem: the write of a concrete
succeeded case-0 run carries path `case_01.json`, and two concrete
distinct timestamps give distinct `validate_and_save` paths. -/
theorem output_path_witness :
    (batch25_out_path 0, dumps (model_dump wf_record)).1 = batch25_out_path 0 ∧
    synthetic_out_path "20250101_000000" 1 ≠ synthetic_out_path "20250102_000000" 1 :=
  ⟨output_path_amended.1 loads0 (run_gens_A 0) 0 _ (List.Mem.head _),
   output_path_amended.2 "20250101_000000" "20250102_000000" 1 1 rfl (by decide)⟩

/-! ### C5 helpers -/

lemma specStateEntry_eq (j : Jval) : specStateEntry j = validate_state_log_entry j := by
  cases j <;> rfl

lemma specTriple_eq (j : Jval) : specTriple j = validate_reasoning_triple j := by
  cases j <;> rfl

lemma nonempty_imp_str (kvs : List (String × Jval)) (k : String)
    (h : specFieldNonEmptyStr kvs k = true) : fieldIsStr kvs k = true := by
  unfold specFieldNonEmptyStr at h
  unfold fieldIsStr getField
  cases hm : kvs.lookup k with
  | none => rw [hm] at h; simp at h
  | some v => rw [hm] at h; cases v <;> simp_all

lemma specOption_imp (j : Jval) (h : specOption j = true) : validate_rl_option j = true := by
  cases j with
  | jobj kvs =>
      unfold specOption at h
      rw [Bool.and_eq_true, Bool.and_eq_true] at h
      obtain ⟨⟨h1, h2⟩, h3⟩ := h
      unfold validate_rl_option
      rw [Bool.and_eq_true, Bool.and_eq_true]
      exact ⟨⟨h1, nonempty_imp_str _ _ h2⟩, nonempty_imp_str _ _ h3⟩
  | jnull => simp [specOption] at h
  | jbool b => simp [specOption] at h
  | jint n => simp [specOption] at h
  | jstr s => simp [specOption] at h
  | jarr l => simp [specOption] at h

lemma all_imp {p q : Jval → Bool} (hpq : ∀ x, p x = true → q x = true) (l : List Jval)
    (h : l.all p = true) : l.all q = true := by
  rw [List.all_eq_true] at *
  intro x hx
  exact hpq x (h x hx)

/-! ### C5 helpers for the rejection directions -/

lemma model_validate_obj (kvs : List (String × Jval)) :
    model_validate (jobj kvs) =
      (fieldIsListOf kvs "format_1_state_log" validate_state_log_entry &&
       fieldIsListOf kvs "format_2_triples" validate_reasoning_triple &&
       fieldIsListOf kvs "format_3_rl_scenario" validate_rl_option &&
       fieldIsStr kvs "narrative_summary") := rfl

lemma validate_state_log_entry_obj (kvs : List (String × Jval)) :
    validate_state_log_entry (jobj kvs) =
      (fieldIsStr kvs "event_description" &&
       fieldIsLiteral kvs "clinical_impact" ["Improves", "Worsens", "Unchanged"] &&
       fieldIsLiteral kvs "environmental_impact" ["Improves", "Worsens", "Unchanged"] &&
       fieldIsLiteral kvs "service_adoption_impact" ["Positive", "Negative", "Unchanged"] &&
       fieldIsStr kvs "edd_delta" &&
       fieldIsStr kvs "ai_assumed_bottleneck") := rfl

lemma validate_rl_option_obj (kvs : List (String × Jval)) :
    validate_rl_option (jobj kvs) =
      (fieldIsLiteral kvs "ai_intended_category" ["Passive", "Proactive", "Overstep"] &&
       fieldIsStr kvs "description" &&
       fieldIsStr kvs "rationale") := rfl

lemma fieldIsListOf_none (kvs : List (String × Jval)) (k : String) (elem : Jval → Bool)
    (h : kvs.lookup k = none) : fieldIsListOf kvs k elem = false := by
  unfold fieldIsListOf getField
  rw [h]

lemma fieldIsStr_none (kvs : List (String × Jval)) (k : String)
    (h : kvs.lookup k = none) : fieldIsStr kvs k = false := by
  unfold fieldIsStr getField
  rw [h]

lemma list_all_false_of_mem {p : Jval → Bool} {l : List Jval} {x : Jval}
    (hm : x ∈ l) (hv : p x = false) : l.all p = false := by
  cases hall : l.all p with
  | false => rfl
  | true =>
      have h2 := List.all_eq_true.mp hall x hm
      rw [hv] at h2
      exact (Bool.false_ne_true h2).elim

lemma fieldIsListOf_false_of_mem (kvs : List (String × Jval)) (k : String)
    (elem : Jval → Bool) (l : List Jval) (x : Jval)
    (h : kvs.lookup k = some (jarr l)) (hm : x ∈ l) (hv : elem x = false) :
    fieldIsListOf kvs k elem = false := by
  unfold fieldIsListOf getField
  rw [h]
  exact list_all_false_of_mem hm hv

lemma fieldIsLiteral_false_of (kvs : List (String × Jval)) (k : String)
    (vals : List String) (s : String)
    (h : kvs.lookup k = some (jstr s)) (hs : s ∉ vals) : fieldIsLiteral kvs k vals = false := by
  unfold fieldIsLiteral getField
  rw [h]
  simpa using hs

lemma state_entry_false_clinical (ekvs : List (String × Jval)) (s : String)
    (h : ekvs.lookup "clinical_impact" = some (jstr s))
    (hs : s ∉ ["Improves", "Worsens", "Unchanged"]) :
    validate_state_log_entry (jobj ekvs) = false := by
  rw [validate_state_log_entry_obj]
  rw [fieldIsLiteral_false_of ekvs "clinical_impact" _ s h hs]
  simp

lemma state_entry_false_environmental (ekvs : List (String × Jval)) (s : String)
    (h : ekvs.lookup "environmental_impact" = some (jstr s))
    (hs : s ∉ ["Improves", "Worsens", "Unchanged"]) :
    validate_state_log_entry (jobj ekvs) = false := by
  rw [validate_state_log_entry_obj]
  rw [fieldIsLiteral_false_of ekvs "environmental_impact" _ s h hs]
  simp

lemma state_entry_false_service (ekvs : List (String × Jval)) (s : String)
    (h : ekvs.lookup "service_adoption_impact" = some (jstr s))
    (hs : s ∉ ["Positive", "Negative", "Unchanged"]) :
    validate_state_log_entry (jobj ekvs) = false := by
  rw [validate_state_log_entry_obj]
  rw [fieldIsLiteral_false_of ekvs "service_adoption_impact" _ s h hs]
  simp

lemma rl_option_false_category (ekvs : List (String × Jval)) (s : String)
    (h : ekvs.lookup "ai_intended_category" = some (jstr s))
    (hs : s ∉ ["Passive", "Proactive", "Overstep"]) :
    validate_rl_option (jobj ekvs) = false := by
  rw [validate_rl_option_obj]
  rw [fieldIsLiteral_false_of ekvs "ai_intended_category" _ s h hs]
  simp

/-! ### C5 -/

/-- C5: the Pydantic validator rejects every parsed record that is
missing one of the four top-level fields; rejects every record in which
an enum field (`clinical_impact`, `environmental_impact`,
`service_adoption_impact` of a state-log entry, or
`ai_intended_category` of an RL option) holds a string outside its
declared value set; in particular it rejects the concrete records
missing `narrative_summary` and carrying `clinical_impact` "Degrades";
and it accepts every record that is fully well-formed in the sense of
the validator contract. -/
theorem validator_correctness :
    (∀ (kvs : List (String × Jval)),
        (kvs.lookup "format_1_state_log" = none ∨ kvs.lookup "format_2_triples" = none ∨
         kvs.lookup "format_3_rl_scenario" = none ∨ kvs.lookup "narrative_summary" = none) →
        model_validate (jobj kvs) = false) ∧
    (∀ (kvs : List (String × Jval)) (l : List Jval) (ekvs : List (String × Jval)) (s : String),
        kvs.lookup "format_1_state_log" = some (jarr l) → jobj ekvs ∈ l →
        ekvs.lookup "clinical_impact" = some (jstr s) →
        s ∉ ["Improves", "Worsens", "Unchanged"] → model_validate (jobj kvs) = false) ∧
    (∀ (kvs : List (String × Jval)) (l : List Jval) (ekvs : List (String × Jval)) (s : String),
        kvs.lookup "format_1_state_log" = some (jarr l) → jobj ekvs ∈ l →
        ekvs.lookup "environmental_impact" = some (jstr s) →
        s ∉ ["Improves", "Worsens", "Unchanged"] → model_validate (jobj kvs) = false) ∧
    (∀ (kvs : List (String × Jval)) (l : List Jval) (ekvs : List (String × Jval)) (s : String),
        kvs.lookup "format_1_state_log" = some (jarr l) → jobj ekvs ∈ l →
        ekvs.lookup "service_adoption_impact" = some (jstr s) →
        s ∉ ["Positive", "Negative", "Unchanged"] → model_validate (jobj kvs) = false) ∧
    (∀ (kvs : List (String × Jval)) (l : List Jval) (ekvs : List (String × Jval)) (s : String),
        kvs.lookup "format_3_rl_scenario" = some (jarr l) → jobj ekvs ∈ l →
        ekvs.lookup "ai_intended_category" = some (jstr s) →
        s ∉ ["Passive", "Proactive", "Overstep"] → model_validate (jobj kvs) = false) ∧
    model_validate record_missing_narrative = false ∧
    model_validate record_bad_impact = false ∧
    (∀ j, spec_well_formed j = true → model_validate j = true) := by
  refine ⟨?_, ?_, ?_, ?_, ?_, by decide, by decide, ?_⟩
  · intro kvs h
    rw [model_validate_obj]
    rcases h with h | h | h | h
    · rw [fieldIsListOf_none kvs "format_1_state_log" validate_state_log_entry h]
      simp
    · rw [fieldIsListOf_none kvs "format_2_triples" validate_reasoning_triple h]
      simp
    · rw [fieldIsListOf_none kvs "format_3_rl_scenario" validate_rl_option h]
      simp
    · rw [fieldIsStr_none kvs "narrative_summary" h]
      simp
  · intro kvs l ekvs s hf hm hc hs
    rw [model_validate_obj]
    rw [fieldIsListOf_false_of_mem kvs "format_1_state_log" validate_state_log_entry l
      (jobj ekvs) hf hm (state_entry_false_clinical ekvs s hc hs)]
    simp
  · intro kvs l ekvs s hf hm hc hs
    rw [model_validate_obj]
    rw [fieldIsListOf_false_of_mem kvs "format_1_state_log" validate_state_log_entry l
      (jobj ekvs) hf hm (state_entry_false_environmental ekvs s hc hs)]
    simp
  · intro kvs l ekvs s hf hm hc hs
    rw [model_validate_obj]
    rw [fieldIsListOf_false_of_mem kvs "format_1_state_log" validate_state_log_entry l
      (jobj ekvs) hf hm (state_entry_false_service ekvs s hc hs)]
    simp
  · intro kvs l ekvs s hf hm hc hs
    rw [model_validate_obj]
    rw [fieldIsListOf_false_of_mem kvs "format_3_rl_scenario" validate_rl_option l
      (jobj ekvs) hf hm (rl_option_false_category ekvs s hc hs)]
    simp
  · intro j h
    cases j with
    | jobj kvs =>
        unfold spec_well_formed at h
        rw [Bool.and_eq_true, Bool.and_eq_true, Bool.and_eq_true] at h
        obtain ⟨⟨⟨h1, h2⟩, h3⟩, h4⟩ := h
        unfold model_validate
        rw [Bool.and_eq_true, Bool.and_eq_true, Bool.and_eq_true]
        refine ⟨⟨⟨?_, ?_⟩, ?_⟩, nonempty_imp_str _ _ h4⟩
        · unfold fieldIsListOf getField
          cases hm : kvs.lookup "format_1_state_log" with
          | none => rw [hm] at h1; simp at h1
          | some v =>
              rw [hm] at h1
              cases v with
              | jarr l =>
                  rw [Bool.and_eq_true] at h1
                  exact all_imp (fun x hx => (specStateEntry_eq x) ▸ hx) l h1.2
              | jnull => simp at h1
              | jbool b => simp at h1
              | jint n => simp at h1
              | jstr s => simp at h1
              | jobj kvs2 => simp at h1
        · unfold fieldIsListOf getField
          cases hm : kvs.lookup "format_2_triples" with
          | none => rw [hm] at h2; simp at h2
          | some v =>
              rw [hm] at h2
              cases v with
              | jarr l =>
                  rw [Bool.and_eq_true] at h2
                  exact all_imp (fun x hx => (specTriple_eq x) ▸ hx) l h2.2
              | jnull => simp at h2
              | jbool b => simp at h2
              | jint n => simp at h2
              | jstr s => simp at h2
              | jobj kvs2 => simp at h2
        · unfold fieldIsListOf getField
          cases hm : kvs.lookup "format_3_rl_scenario" with
          | none => rw [hm] at h3; simp at h3
          | some v =>
              rw [hm] at h3
              cases v with
              | jarr l =>
                  rw [Bool.and_eq_true] at h3
                  exact all_imp specOption_imp l h3.2
              | jnull => simp at h3
              | jbool b => simp at h3
              | jint n => simp at h3
              | jstr s => simp at h3
              | jobj kvs2 => simp at h3
    | jnull => simp [spec_well_formed] at h
    | jbool b => simp [spec_well_formed] at h
    | jint n => simp [spec_well_formed] at h
    | jstr s => simp [spec_well_formed] at h
    | jarr l => simp [spec_well_formed] at h

/-- Witness for C5: the universal parts applied at concrete records — a
record missing `narrative_summary`, a record whose state-log entry has
`clinical_impact` "Degrades", a record whose RL option category is
"Neutral", and the fully well-formed sample record accepted. -/
theorem validator_correctness_witness :
    model_validate (jobj [("format_1_state_log", jarr []), ("format_2_triples", jarr []),
      ("format_3_rl_scenario", jarr [])]) = false ∧
    model_validate (jobj [("format_1_state_log", jarr [jobj [("clinical_impact", jstr "Degrades")]])]) = false ∧
    model_validate (jobj [("format_3_rl_scenario", jarr [jobj [("ai_intended_category", jstr "Neutral")]])]) = false ∧
    spec_well_formed wf_record = true ∧ model_validate wf_record = true :=
  ⟨validator_correctness.1 _ (Or.inr (Or.inr (Or.inr rfl))),
   validator_correctness.2.1 _ _ [("clinical_impact", jstr "Degrades")] "Degrades"
     rfl (List.Mem.head _) rfl (by decide),
   validator_correctness.2.2.2.2.1 _ _ [("ai_intended_category", jstr "Neutral")] "Neutral"
     rfl (List.Mem.head _) rfl (by decide),
   by decide,
   validator_correctness.2.2.2.2.2.2.2 wf_record (by decide)⟩

/-! ### C6 helpers -/

lemma mem_simInsert (key : IndexedEntry → Int) (e a : IndexedEntry) (l : List IndexedEntry) :
    a ∈ simInsert key e l ↔ a = e ∨ a ∈ l := by
  induction l with
  | nil => simp [simInsert]
  | cons x xs ih =>
      unfold simInsert
      by_cases hc : key e ≤ key x
      · rw [if_pos hc]
        simp only [List.mem_cons, ih]
        tauto
      · rw [if_neg hc]
        simp only [List.mem_cons]

lemma mem_sortBySimDesc (key : IndexedEntry → Int) (l : List IndexedEntry) (a : IndexedEntry) :
    a ∈ sortBySimDesc key l ↔ a ∈ l := by
  induction l with
  | nil => simp [sortBySimDesc]
  | cons x xs ih =>
      unfold sortBySimDesc
      rw [mem_simInsert, ih, List.mem_cons]

/-! ### C6 -/

/-- C6: every metadata record selected by a retrieval query satisfies
the minimum-complexity filter; the returned exemplar list never exceeds
`n`; and when no collection entry meets the threshold, retrieval returns
the empty list rather than erroring. -/
theorem retrieval_filter_correct (loads : String → Option Jval) (sim : String → String → Int)
    (coll : List IndexedEntry) (q : String) (n : Nat) (c : Int) :
    (∀ m ∈ collection_query sim coll q n c, c ≤ m.complexity_score) ∧
    (retrieve_few_shot_examples loads sim coll c q n).length ≤ n ∧
    ((∀ e ∈ coll, e.metadata.complexity_score < c) →
      retrieve_few_shot_examples loads sim coll c q n = []) := by
  refine ⟨?_, ?_, ?_⟩
  · intro m hm
    unfold collection_query at hm
    have hm2 := List.take_subset n _ hm
    obtain ⟨e, he, rfl⟩ := List.mem_map.mp hm2
    have he2 := (mem_sortBySimDesc _ _ _).mp he
    have he3 := List.mem_filter.mp he2
    exact of_decide_eq_true he3.2
  · unfold retrieve_few_shot_examples
    calc (List.filterMap _ (collection_query sim coll q n c)).length
        ≤ (collection_query sim coll q n c).length := List.length_filterMap_le _ _
      _ ≤ n := by
          unfold collection_query
          rw [List.length_take]
          exact min_le_left _ _
  · intro hall
    have hfil : coll.filter (fun e => decide (c ≤ e.metadata.complexity_score)) = [] := by
      rw [List.filter_eq_nil_iff]
      intro e he
      simp only [decide_eq_true_eq]
      exact not_le.mpr (hall e he)
    unfold retrieve_few_shot_examples collection_query
    rw [hfil]
    simp [sortBySimDesc]

/-- Witness for C6 at the spec scenario: one indexed case of complexity
5 and a threshold of 6 — retrieval returns the empty list. -/
theorem retrieval_filter_witness :
    retrieve_few_shot_examples (fun _ => none) (fun _ _ => 0)
      [⟨jstr "S1", "doc", ⟨5, "Unknown", "No", jstr "Unknown", ""⟩⟩] 6 "q" 2 = [] :=
  (retrieval_filter_correct (fun _ => none) (fun _ _ => 0)
    [⟨jstr "S1", "doc", ⟨5, "Unknown", "No", jstr "Unknown", ""⟩⟩] "q" 2 6).2.2
    (by
      intro e he
      rw [List.mem_singleton.mp he]
      decide)

/-! ### C7 -/

/-- C7: prompt composition is deterministic — two compositions from
equal taxonomies, exemplar lists and target labels produce byte-identical
prompt text. -/
theorem prompt_deterministic (f a o : Jval) (ex : List Jval) (p fr : String)
    (f2 a2 o2 : Jval) (ex2 : List Jval) (p2 fr2 : String)
    (h1 : f = f2) (h2 : a = a2) (h3 : o = o2) (h4 : ex = ex2) (h5 : p = p2) (h6 : fr = fr2) :
    build_prompt f a o ex p fr = build_prompt f2 a2 o2 ex2 p2 fr2 := by
  subst h1 h2 h3 h4 h5 h6
  rfl

/-- Witness for C7 at concrete inputs. -/
theorem prompt_deterministic_witness :
    build_prompt (jobj [("delay", jstr "+30 Days")]) (jobj []) (jobj [])
      [jstr "case"] "78yo Female, CHF" "Managed Medicare Auth" =
    build_prompt (jobj [("delay", jstr "+30 Days")]) (jobj []) (jobj [])
      [jstr "case"] "78yo Female, CHF" "Managed Medicare Auth" :=
  prompt_deterministic _ _ _ _ _ _ _ _ _ _ _ _ rfl rfl rfl rfl rfl rfl

/-! ### C8 -/

/-- C8: no partial or unvalidated output is persisted: in
`validate_and_save` a file is written only when the raw response parses
and validates (parse or validation failure writes nothing), and in the
batch retry loop every file ever written carries a validated record. -/
theorem no_unvalidated_persist (loads : String → Option Jval) (raw : String) (i : Nat)
    (ts : String) :
    (∀ w ∈ (validate_and_save loads raw i ts).2,
        ∃ j, loads (strip_fences raw) = some j ∧ model_validate j = true ∧
          w.2 = dumps (model_dump j)) ∧
    (loads (strip_fences raw) = none → validate_and_save loads raw i ts = (none, [])) ∧
    (∀ j, loads (strip_fences raw) = some j → model_validate j = false →
        validate_and_save loads raw i ts = (none, [])) ∧
    (∀ (gens : Nat → GenResult) (ci : Nat), ∀ w ∈ (run_case_attempts loads gens ci).writes,
        ∃ j, model_validate j = true ∧ w = (batch25_out_path ci, dumps (model_dump j))) := by
  refine ⟨?_, ?_, ?_, ?_⟩
  · intro w hw
    unfold validate_and_save at hw
    cases hl : loads (strip_fences raw) with
    | none => rw [hl] at hw; simp at hw
    | some data =>
        rw [hl] at hw
        change w ∈ (if model_validate data = true then
            ((some data : Option Jval), [(synthetic_out_path ts i, dumps (model_dump data))])
          else (none, [])).2 at hw
        by_cases hv : model_validate data = true
        · rw [if_pos hv] at hw
          rw [List.mem_singleton.mp hw]
          exact ⟨data, rfl, hv, rfl⟩
        · rw [if_neg hv] at hw
          simp at hw
  · intro hl
    unfold validate_and_save
    rw [hl]
  · intro j hl hv
    unfold validate_and_save
    rw [hl]
    change (if model_validate j = true then
        ((some j : Option Jval), [(synthetic_out_path ts i, dumps (model_dump j))])
      else (none, [])) = (none, [])
    rw [hv]
    rfl
  · intro gens ci w hw
    exact run_case_writes loads gens ci w hw

/-- Witness for C8: a raw response that does not parse writes nothing. -/
theorem no_unvalidated_persist_witness :
    validate_and_save loads0 "NOT JSON" 1 "20250101_000000" = (none, []) :=
  (no_unvalidated_persist loads0 "NOT JSON" 1 "20250101_000000").2.1 rfl

/-! ### C9 -/

/-- C9: every exemplar returned by retrieval comes from a queried
metadata record whose `raw_json` is non-empty and deserializes; a stored
payload that fails to deserialize is silently excluded and never
propagates an error. -/
theorem malformed_payload_excluded (loads : String → Option Jval) (sim : String → String → Int)
    (coll : List IndexedEntry) (c : Int) (q : String) (n : Nat) (ex : Jval)
    (hex : ex ∈ retrieve_few_shot_examples loads sim coll c q n) :
    ∃ m, m ∈ collection_query sim coll q n c ∧ m.raw_json ≠ "" ∧ loads m.raw_json = some ex := by
  unfold retrieve_few_shot_examples at hex
  obtain ⟨m, hm, hf⟩ := List.mem_filterMap.mp hex
  by_cases h0 : m.raw_json = ""
  · rw [if_pos h0] at hf
    simp at hf
  · rw [if_neg h0] at hf
    exact ⟨m, hm, h0, hf⟩

/-- Witness for C9: with the malformed payload ranked first, retrieval
still returns the good exemplar, which the theorem traces back to a
deserializable queried record. -/
theorem malformed_payload_excluded_witness :
    ∃ m, m ∈ collection_query simW2 collW2 "q" 2 4 ∧ m.raw_json ≠ "" ∧
      loadsW2 m.raw_json = some (jstr "g") :=
  malformed_payload_excluded loadsW2 simW2 collW2 4 "q" 2 (jstr "g") (List.Mem.head _)

-- ### C1
/-- C1: against the claim that a case whose attempts all fail is always
counted, a case whose three attempts all raise rate-limit errors makes
exactly 3 attempts but increments neither the success nor the failure
counter (while a case failing with non-rate-limit errors does increment
the failure counter). -/
theorem batch25_rate_limit_exhaustion_uncounted :
    run_case_attempts (fun _ => none) (fun _ => GenResult.raises "429 Resource has been exhausted") 0 =
      ⟨false, 3, 0, 0, [60, 120, 180], []⟩ ∧
    run_case_attempts (fun _ => none) (fun _ => GenResult.raises "boom") 0 =
      ⟨false, 3, 0, 1, [5, 5], []⟩ := by
  exact ⟨by decide, by decide⟩

-- ### C2 counterexample
/-- C2 counterexample: one malformed seed file aborts the whole ingest
batch — the well-formed document after it is not indexed — although the
well-formed document alone would be ingested. -/
theorem ingest_malformed_aborts_cex :
    ingest_seed_cases [("bad.json", none), ("good.json", some (jobj []))] =
      .error "json.decoder.JSONDecodeError in bad.json" ∧
    ingest_seed_cases [("good.json", some (jobj []))] =
      .ok [⟨jstr "good", "Clinical Barriers:  | Chaos Signals: ",
            ⟨0, "Unknown", "No", jstr "Unknown", "\x7b\x7d"⟩⟩] := by
  exact ⟨rfl, rfl⟩

-- ### C2 amended
/-- C2 amended: a malformed (unparsable) seed file always aborts the
entire ingest batch (the parse error propagates and nothing is
upserted), while missing required header fields never fail a document —
its fields are coerced to defaults and the document is still
ingested. -/
theorem ingest_error_containment_amended :
    (∀ (files : List (String × Option Jval)) (fn : String),
        (fn, none) ∈ files → isOkE (ingest_seed_cases files) = false) ∧
    isOkE (processSeedFile "seed_001.json" (some (jobj []))) = true ∧
    isOkE (ingest_seed_cases [("seed_001.json", some (jobj []))]) = true := by
  refine ⟨?_, rfl, rfl⟩
  intro files
  induction files with
  | nil => intro fn h; simp at h
  | cons hd tl ih =>
      intro fn h
      rcases List.mem_cons.mp h with h1 | h2
      · rw [← h1]
        rfl
      · obtain ⟨f, p⟩ := hd
        have htl := ih fn h2
        show isOkE (ingest_seed_cases ((f, p) :: tl)) = false
        unfold ingest_seed_cases
        cases hp : processSeedFile f p with
        | error e => rfl
        | ok e =>
            cases ht : ingest_seed_cases tl with
            | error m => rfl
            | ok es => rw [ht] at htl; simp [isOkE] at htl

/-- Witness for the amended C2 theorem at a concrete one-file batch. -/
theorem ingest_error_containment_witness :
    isOkE (ingest_seed_cases [("bad.json", none)]) = false :=
  ingest_error_containment_amended.1 [("bad.json", none)] "bad.json" (List.Mem.head _)

-- ### C3 counterexample
/-- C3 counterexample: records whose RL scenario has 2 or 4 options —
and whose description, rationale and narrative_summary are all empty
strings — pass `SyntheticCaseOutput.model_validate`, contradicting the
claim that validation accepts only exactly-3-option records with
non-empty free text. -/
theorem rl_scenario_length_cex :
    model_validate (mkRecord 2) = true ∧ model_validate (mkRecord 4) = true := by
  exact ⟨by decide, by decide⟩

-- ### C3 amended
/-- C3 amended: the Pydantic validator puts no length constraint on
`format_3_rl_scenario` and no non-emptiness constraint on the free-text
fields: for every `k`, a record with `k` options whose description,
rationale and narrative_summary are empty strings validates, provided
each option's category is one of Passive/Proactive/Overstep and all
declared fields are present strings. -/
theorem rl_scenario_validator_amended (k : Nat) :
    model_validate (mkRecord k) = true := by
  have hrep : (List.replicate k sampleOption).all validate_rl_option = true := by
    induction k with
    | zero => rfl
    | succ n ih => simp [List.replicate_succ, List.all_cons, ih]; rfl
  show (true && (true && ((List.replicate k sampleOption).all validate_rl_option && true))) = true
  simp [hrep]

/-- Witness: the amended C3 theorem at `k = 2`. -/
theorem rl_scenario_validator_witness : model_validate (mkRecord 2) = true :=
  rl_scenario_validator_amended 2

-- ### C10 counterexample
/-- C10 counterexample: for the seed file name "case.json.json" with no
`case_header.case_id`, the code derives the id "case" (every occurrence
of ".json" removed), not "case.json" (the name with its ".json" suffix
removed) as the claim states. -/
theorem case_id_suffix_cex :
    (processSeedFile "case.json.json" (some (jobj []))).map (fun e => e.id) = .ok (jstr "case") ∧
    ("case" : String) ≠ "case.json" := by
  exact ⟨rfl, by decide⟩

-- ### C10 amended
/-- C10 amended: for every parsable seed document whose case_header is an
object, ingest never rejects the document for missing or malformed
header fields: a missing or non-integer complexity_score is coerced to
0, a missing outcome becomes "Unknown", a missing or empty
modification_type yields primary_friction "Unknown", and a missing
case_header.case_id is replaced by the filename with every occurrence of
the substring ".json" removed. -/
theorem header_coercion_amended :
    (∀ (fname : String) (hdr : List (String × Jval)),
      ∃ e, processSeedFile fname (some (mkSeedDoc hdr)) = .ok e ∧
        (hdr.lookup "complexity_score" = none → e.metadata.complexity_score = 0) ∧
        (∀ v, hdr.lookup "complexity_score" = some v → pyInt v = none →
          e.metadata.complexity_score = 0) ∧
        (hdr.lookup "outcome" = none → e.metadata.outcome = "Unknown") ∧
        e.metadata.primary_friction = jstr "Unknown" ∧
        (hdr.lookup "case_id" = none → e.id = jstr (strReplace fname ".json" ""))) ∧
    (processSeedFile "g.json"
        (some (jobj [("environmental_logic", jobj [("modification_type", jstr "")])]))).map
      (fun e => e.metadata.primary_friction) = .ok (jstr "Unknown") ∧
    (processSeedFile "h.json"
        (some (jobj [("environmental_logic", jobj [("modification_type", jarr [])])]))).map
      (fun e => e.metadata.primary_friction) = .ok (jstr "Unknown") := by
  refine ⟨?_, rfl, rfl⟩
  intro fname hdr
  refine ⟨⟨(List.lookup "case_id" hdr).getD (jstr (strReplace fname ".json" "")),
           "Clinical Barriers:  | Chaos Signals: ",
           ⟨(pyInt ((List.lookup "complexity_score" hdr).getD (jint 0))).getD 0,
            pyStr ((List.lookup "outcome" hdr).getD (jstr "Unknown")),
            "No", jstr "Unknown", dumps (mkSeedDoc hdr)⟩⟩, rfl, ?_, ?_, ?_, rfl, ?_⟩
  · intro h; simp [h, pyInt]
  · intro v hv hnone; simp [hv, hnone]
  · intro h; simp [h, pyStr, pyRepr]
  · intro h; simp [h]

/-- Witness for the amended C10 theorem at a concrete file name and an
empty header. -/
theorem header_coercion_witness :
    ∃ e, processSeedFile "seed_002.json" (some (mkSeedDoc [])) = .ok e ∧
      (([] : List (String × Jval)).lookup "complexity_score" = none →
        e.metadata.complexity_score = 0) ∧
      (∀ v, ([] : List (String × Jval)).lookup "complexity_score" = some v → pyInt v = none →
        e.metadata.complexity_score = 0) ∧
      (([] : List (String × Jval)).lookup "outcome" = none → e.metadata.outcome = "Unknown") ∧
      e.metadata.primary_friction = jstr "Unknown" ∧
      (([] : List (String × Jval)).lookup "case_id" = none →
        e.id = jstr (strReplace "seed_002.json" ".json" "")) :=
  header_coercion_amended.1 "seed_002.json" []
